import Mathlib

set_option maxHeartbeats 1000000

/- Shallow embedding of src/index.tsx of the image-copyright assistant:
   the base64 helpers (fileToBase64, base64ToArrayBuffer), the PCM-to-WAV
   container builder (pcmToWav), the analysis orchestration
   (analyzeImageWithAI) with its metadata gate, and the text-to-speech
   orchestration (handleTextToSpeech) with its playback handlers. -/

/-- JSON values as produced by JSON.parse on the response text. Numbers are
modelled as integers; the behaviour under study never involves fractional
numbers. -/
inductive JsonVal where
  | null : JsonVal
  | bool : Bool → JsonVal
  | num : Int → JsonVal
  | str : String → JsonVal
  | arr : List JsonVal → JsonVal
  | obj : List (String × JsonVal) → JsonVal

/-- First-match lookup in a JSON object field list. -/
def lookupField : List (String × JsonVal) → String → Option JsonVal
  | [], _ => none
  | (k, v) :: rest, key => if k == key then some v else lookupField rest key

/-- Property access on a parsed JSON value: a field of an object, undefined
(none) on any non-object.  Access on null is handled separately at each use
site because it throws in JavaScript. -/
def getField : JsonVal → String → Option JsonVal
  | JsonVal.obj fields, key => lookupField fields key
  | _, _ => none

/-- JavaScript truthiness of a JSON value, as used by the source in
`parsedJson.tags || []` and in the audio-data guard. -/
def truthy : JsonVal → Bool
  | JsonVal.null => false
  | JsonVal.bool b => b
  | JsonVal.num n => !(n == 0)
  | JsonVal.str s => !(s == "")
  | JsonVal.arr _ => true
  | JsonVal.obj _ => true

/-- The standard base64 alphabet used by the browser primitives
(FileReader data URLs and atob) that fileToBase64 and base64ToArrayBuffer
delegate to. -/
def b64Alphabet : List Char :=
  "ABCDEFGHIJKLMNOPQRSTUVWXYZabcdefghijklmnopqrstuvwxyz0123456789+/".toList

/-- Character for a six-bit group (always in range at every call site). -/
def b64charOf (n : Nat) : Char := b64Alphabet.getD n 'A'

/-- Index of a base64 character in the alphabet (64 when not present; atob
would throw there, and the round-trip claims only exercise alphabet
characters). -/
def b64indexOf (c : Char) : Nat := b64Alphabet.findIdx (fun x => x == c)

/-- RFC 4648 base64 encoding of a byte sequence, as performed by the
browser when FileReader.readAsDataURL produces the data-URL payload that
fileToBase64 extracts. -/
def b64encode : List Nat → List Char
  | [] => []
  | [a] => [b64charOf (a / 4), b64charOf (a % 4 * 16), '=', '=']
  | [a, b] =>
      [b64charOf (a / 4), b64charOf (a % 4 * 16 + b / 16), b64charOf (b % 16 * 4), '=']
  | a :: b :: c :: rest =>
      b64charOf (a / 4) :: b64charOf (a % 4 * 16 + b / 16)
        :: b64charOf (b % 16 * 4 + c / 64) :: b64charOf (c % 64) :: b64encode rest

/-- RFC 4648 base64 decoding of a character sequence, as performed by atob
inside base64ToArrayBuffer (src/index.tsx lines 18-26). -/
def b64decode : List Char → List Nat
  | c1 :: c2 :: c3 :: c4 :: rest =>
      let s1 := b64indexOf c1
      let s2 := b64indexOf c2
      if c3 == '=' then [s1 * 4 + s2 / 16]
      else
        let s3 := b64indexOf c3
        if c4 == '=' then [s1 * 4 + s2 / 16, s2 % 16 * 16 + s3 / 4]
        else (s1 * 4 + s2 / 16) :: (s2 % 16 * 16 + s3 / 4)
          :: (s3 % 4 * 64 + b64indexOf c4) :: b64decode rest
  | _ => []

/-- fileToBase64 (src/index.tsx lines 8-15): reads the file bytes through a
data URL and keeps the base64 payload after the comma. -/
def fileToBase64 (bytes : List Nat) : String := String.mk (b64encode bytes)

/-- base64ToArrayBuffer (src/index.tsx lines 18-26): atob followed by a
charCodeAt loop, yielding the raw bytes. -/
def base64ToArrayBuffer (base64 : String) : List Nat := b64decode base64.toList

/-- Little-endian bytes of a 16-bit view-write (DataView.setUint16 /
setInt16 store the value modulo 2 to the 16). -/
def le16 (v : Nat) : List Nat := [v % 256, v / 256 % 256]

/-- Little-endian bytes of a 32-bit view-write (DataView.setUint32 stores
the value modulo 2 to the 32). -/
def le32 (v : Nat) : List Nat :=
  [v % 256, v / 256 % 256, v / 65536 % 256, v / 16777216 % 256]

/-- Big-endian bytes of a 32-bit view-write, used for the four-character
chunk tags. -/
def be32 (v : Nat) : List Nat :=
  [v / 16777216 % 256, v / 65536 % 256, v / 256 % 256, v % 256]

/-- Bytes written by view.setInt16 for one sample: the two's-complement
16-bit pattern, little-endian. -/
def i16le (s : Int) : List Nat := le16 (s % 65536).toNat

/-- The sample-writing loop of pcmToWav (src/index.tsx lines 51-55). -/
def writeSamples : List Int → List Nat
  | [] => []
  | s :: rest => i16le s ++ writeSamples rest

/-- pcmToWav (src/index.tsx lines 29-58): 44-byte RIFF/WAVE header followed
by the samples as little-endian signed 16-bit integers. -/
def pcmToWav (pcmData : List Int) (sampleRate : Nat) : List Nat :=
  let numChannels := 1
  let bitsPerSample := 16
  let byteRate := numChannels * bitsPerSample / 8 * sampleRate
  let blockAlign := numChannels * bitsPerSample / 8
  be32 0x52494646
    ++ le32 (36 + pcmData.length * 2)
    ++ be32 0x57415645
    ++ be32 0x666d7420
    ++ le32 16
    ++ le16 1
    ++ le16 numChannels
    ++ le32 sampleRate
    ++ le32 byteRate
    ++ le16 blockAlign
    ++ le16 bitsPerSample
    ++ be32 0x64617461
    ++ le32 (pcmData.length * 2)
    ++ writeSamples pcmData

/-- Little-endian decoding of the first two bytes of a list (specification
side: what a reader of the produced header sees). -/
def decodeLE16 (l : List Nat) : Nat := l.getD 0 0 + 256 * l.getD 1 0

/-- Little-endian decoding of the first four bytes of a list. -/
def decodeLE32 (l : List Nat) : Nat :=
  l.getD 0 0 + 256 * l.getD 1 0 + 65536 * l.getD 2 0 + 16777216 * l.getD 3 0

/-- Signed 16-bit value represented by two little-endian bytes. -/
def decodeS16 (b0 b1 : Nat) : Int :=
  if b0 + 256 * b1 < 32768 then ((b0 + 256 * b1 : Nat) : Int)
  else ((b0 + 256 * b1 : Nat) : Int) - 65536

/-- The component of the React state that the analysis operation writes
(src/index.tsx lines 64-76): the four verdicts with their explanations, the
metadata triple and the error banner.  Fields hold raw parsed JSON values
because the source assigns the parsed fields without runtime validation. -/
structure AnalyzeState where
  copyrightStatus : Option JsonVal
  copyrightDescription : Option JsonVal
  zedgeViolationStatus : Option JsonVal
  zedgeViolationDescription : Option JsonVal
  womenPolicyStatus : Option JsonVal
  womenPolicyDescription : Option JsonVal
  kidsViolationStatus : Option JsonVal
  kidsViolationDescription : Option JsonVal
  title : Option JsonVal
  imageDescription : Option JsonVal
  tags : JsonVal
  error : Option String

/-- resetState (src/index.tsx lines 92-105). -/
def resetState (st : AnalyzeState) : AnalyzeState :=
  { st with
    copyrightStatus := none
    copyrightDescription := none
    zedgeViolationStatus := none
    zedgeViolationDescription := none
    womenPolicyStatus := none
    womenPolicyDescription := none
    kidsViolationStatus := none
    kidsViolationDescription := none
    title := none
    imageDescription := none
    tags := JsonVal.arr []
    error := none }

/-- Initial values of the useState hooks relevant to analysis. -/
def initialAnalysis : AnalyzeState :=
  { copyrightStatus := none
    copyrightDescription := none
    zedgeViolationStatus := none
    zedgeViolationDescription := none
    womenPolicyStatus := none
    womenPolicyDescription := none
    kidsViolationStatus := none
    kidsViolationDescription := none
    title := none
    imageDescription := none
    tags := JsonVal.arr []
    error := none }

/-- The strict-equality comparison of a parsed field against the string
literal "pass" (src/index.tsx line 251). -/
def isPassVal : Option JsonVal → Bool
  | some (JsonVal.str s) => s == "pass"
  | _ => false

/-- The strict-equality comparison of a parsed field against "found". -/
def isFoundVal : Option JsonVal → Bool
  | some (JsonVal.str s) => s == "found"
  | _ => false

/-- The metadata gate condition of src/index.tsx line 251: all four verdict
fields of the parsed response compare strictly equal to "pass". -/
def allPass (j : JsonVal) : Bool :=
  isPassVal (getField j "status") && isPassVal (getField j "zedgeViolationStatus")
    && isPassVal (getField j "womenPolicyStatus") && isPassVal (getField j "kidsViolationStatus")

/-- The tags assignment of src/index.tsx line 254: parsedJson.tags with a
falsy fallback to the empty array. -/
def tagsOrEmpty (j : JsonVal) : JsonVal :=
  match getField j "tags" with
  | some t => if truthy t then t else JsonVal.arr []
  | none => JsonVal.arr []

/-- The unconditional verdict assignments (lines 242-249) followed by the
gated metadata assignments (lines 251-255). -/
def applyParsed (st : AnalyzeState) (j : JsonVal) : AnalyzeState :=
  let st1 :=
    { st with
      copyrightStatus := getField j "status"
      copyrightDescription := getField j "copyrightDescription"
      zedgeViolationStatus := getField j "zedgeViolationStatus"
      zedgeViolationDescription := getField j "zedgeViolationDescription"
      womenPolicyStatus := getField j "womenPolicyStatus"
      womenPolicyDescription := getField j "womenPolicyDescription"
      kidsViolationStatus := getField j "kidsViolationStatus"
      kidsViolationDescription := getField j "kidsViolationDescription" }
  if allPass j then
    { st1 with
      title := getField j "title"
      imageDescription := getField j "imageDescription"
      tags := tagsOrEmpty j }
  else st1

/-- Error text constructed in the catch block of the analysis flow
(src/index.tsx line 258). -/
def analysisErrorMsg (msg : String) : String :=
  "An error occurred during AI analysis: " ++ msg

/-- Message of the TypeError thrown when the parsed payload is null and
line 242 reads a property of it. -/
def nullStatusAccessMsg : String :=
  "TypeError: cannot read properties of null reading status"

/-- Result of the asynchronous part of an analysis run, seen from the
orchestrator: either a rejection before or during the exchange
(fileToBase64 or the network call fails), or the response text together
with the result of JSON.parse on it. -/
inductive AnalyzeOutcome where
  | throwBefore : String → AnalyzeOutcome
  | responseText : Except String JsonVal → AnalyzeOutcome

/-- The body of the try/catch of analyzeImageWithAI after the state reset:
assignments from the parsed response on success, the catch assignment on
any throw. -/
def applyOutcome (st : AnalyzeState) (o : AnalyzeOutcome) : AnalyzeState :=
  match o with
  | AnalyzeOutcome.throwBefore msg => { st with error := some (analysisErrorMsg msg) }
  | AnalyzeOutcome.responseText (Except.error msg) =>
      { st with error := some (analysisErrorMsg msg) }
  | AnalyzeOutcome.responseText (Except.ok JsonVal.null) =>
      { st with error := some (analysisErrorMsg nullStatusAccessMsg) }
  | AnalyzeOutcome.responseText (Except.ok j) => applyParsed st j

/-- analyzeImageWithAI (src/index.tsx lines 153-263) as a state transformer:
reset first (line 160), then the exchange and its try/catch. -/
def analyzeImageWithAI (st : AnalyzeState) (o : AnalyzeOutcome) : AnalyzeState :=
  applyOutcome (resetState st) o

/-- Whether the exchange or the parsing failed (the error paths of claim
C5: fileToBase64 rejection, network failure, JSON.parse throw). -/
def failedExchange : AnalyzeOutcome → Bool
  | AnalyzeOutcome.throwBefore _ => true
  | AnalyzeOutcome.responseText (Except.error _) => true
  | AnalyzeOutcome.responseText (Except.ok _) => false

/-- A string-valued field. -/
def isStringVal : Option JsonVal → Bool
  | some (JsonVal.str _) => true
  | _ => false

/-- A verdict field as declared: present and exactly "pass" or "found". -/
def isVerdictVal (v : Option JsonVal) : Bool := isPassVal v || isFoundVal v

/-- An optional string field: absent or a string. -/
def optStringVal : Option JsonVal → Bool
  | none => true
  | some (JsonVal.str _) => true
  | _ => false

/-- A string element of a tags array. -/
def isStrElem : JsonVal → Bool
  | JsonVal.str _ => true
  | _ => false

/-- An optional tags field: absent or an array of strings. -/
def optTagsVal : Option JsonVal → Bool
  | none => true
  | some (JsonVal.arr xs) => xs.all isStrElem
  | _ => false

/-- The declared response shape, following the specification (section 4.3
step 3 and the responseSchema of src/index.tsx lines 220-235): an object
with four verdict fields constrained to the literals "pass"/"found", four
free-text explanation strings, and optional title, description and tags.
This definition exists only to compare the specified validation against the
code, which performs no such check after JSON.parse. -/
def declaredShapeOk (j : JsonVal) : Bool :=
  (match j with | JsonVal.obj _ => true | _ => false)
    && isVerdictVal (getField j "status")
    && isStringVal (getField j "copyrightDescription")
    && isVerdictVal (getField j "zedgeViolationStatus")
    && isStringVal (getField j "zedgeViolationDescription")
    && isVerdictVal (getField j "womenPolicyStatus")
    && isStringVal (getField j "womenPolicyDescription")
    && isVerdictVal (getField j "kidsViolationStatus")
    && isStringVal (getField j "kidsViolationDescription")
    && optStringVal (getField j "title")
    && optStringVal (getField j "imageDescription")
    && optTagsVal (getField j "tags")

/-- A syntactically valid JSON payload that does not match the declared
shape (status is neither "pass" nor "found", explanations missing). -/
def badShape : JsonVal := JsonVal.obj [("status", JsonVal.str "banana")]

/-- An all-pass response carrying title and description but no tags field. -/
def samplePassResponse : JsonVal :=
  JsonVal.obj
    [("status", JsonVal.str "pass"),
     ("copyrightDescription", JsonVal.str "no marks"),
     ("zedgeViolationStatus", JsonVal.str "pass"),
     ("zedgeViolationDescription", JsonVal.str "clean"),
     ("womenPolicyStatus", JsonVal.str "pass"),
     ("womenPolicyDescription", JsonVal.str "clean"),
     ("kidsViolationStatus", JsonVal.str "pass"),
     ("kidsViolationDescription", JsonVal.str "clean"),
     ("title", JsonVal.str "Red fox in a sunlit field"),
     ("imageDescription", JsonVal.str "A red fox walks through tall grass")]

/-- The surrounding application state that governs the analyze button
(src/index.tsx lines 62-79 and 392): the analysis fields, the loading flag,
whether an image file is selected, and the advisory modal. -/
structure AppState where
  analysis : AnalyzeState
  loading : Bool
  imagePresent : Bool
  modal : Option String

/-- Initial application state: no image, not loading, no modal. -/
def initialAppState : AppState :=
  { analysis := initialAnalysis, loading := false, imagePresent := false, modal := none }

/-- The disabled attribute of the Analysis button (src/index.tsx line 392):
disabled while loading or without an image. -/
def analyzeDisabled (loading imagePresent : Bool) : Bool := loading || !imagePresent

/-- The synchronous head of analyzeImageWithAI (lines 154-160): the
no-image advisory, or setLoading(true) followed by resetState().  The
returned flag records whether the exchange is dispatched. -/
def analyzeHandlerStart (st : AppState) : AppState × Bool :=
  if st.imagePresent = false then
    ({ st with modal := some "Please upload an image first." }, false)
  else
    ({ st with loading := true, analysis := resetState st.analysis }, true)

/-- A click on the Analysis button: delivered only when the button is not
disabled; none models a refused (disabled) click that dispatches nothing. -/
def clickAnalyze (st : AppState) : Option (AppState × Bool) :=
  if analyzeDisabled st.loading st.imagePresent then none
  else some (analyzeHandlerStart st)

/-- Completion of an in-flight analysis: response handling (or catch) and
the finally block clearing the loading flag (lines 260-262). -/
def finishAnalyze (st : AppState) (o : AnalyzeOutcome) : AppState :=
  { st with loading := false, analysis := applyOutcome st.analysis o }

/-- The speech-related component of the React state: the in-flight flag and
the advisory modal. -/
structure SpeechState where
  isSpeaking : Bool
  modal : Option String

/-- JavaScript falsiness of the text argument of handleTextToSpeech: null,
undefined or the empty string. -/
def textFalsy : Option String → Bool
  | none => true
  | some s => s == ""

/-- Optional-chaining field access. -/
def chainField (j : Option JsonVal) (key : String) : Option JsonVal :=
  match j with
  | some v => getField v key
  | none => none

/-- Optional-chaining array indexing. -/
def arrGet (j : Option JsonVal) (i : Nat) : Option JsonVal :=
  match j with
  | some (JsonVal.arr xs) => xs[i]?
  | _ => none

/-- result?.candidates?.[0]?.content?.parts?.[0] (src/index.tsx line 307). -/
def extractPart (body : JsonVal) : Option JsonVal :=
  arrGet (chainField (chainField (arrGet (getField body "candidates") 0) "content") "parts") 0

/-- A parsed JSON value read as a string; non-string values are treated as
absent (the claims only exercise string payloads). -/
def asStr : Option JsonVal → Option String
  | some (JsonVal.str s) => some s
  | _ => none

/-- part?.inlineData?.data (line 308). -/
def speechAudioData (body : JsonVal) : Option String :=
  asStr (chainField (chainField (extractPart body) "inlineData") "data")

/-- part?.inlineData?.mimeType (line 309). -/
def speechMimeType (body : JsonVal) : Option String :=
  asStr (chainField (chainField (extractPart body) "inlineData") "mimeType")

/-- The guard of line 311: audioData truthy and mimeType starting with
"audio/". -/
def audioGuard (audioData mimeType : Option String) : Bool :=
  (match audioData with
   | some s => !(s == "")
   | none => false)
    && (match mimeType with
        | some m => "audio/".toList.isPrefixOf m.toList
        | none => false)

/-- Numeric value of a digit run. -/
def natOfDigits (ds : List Char) : Nat :=
  ds.foldl (fun a c => a * 10 + (c.toNat - 48)) 0

/-- mimeType.match of the rate pattern (line 312): the first occurrence of
"rate=" followed by at least one digit, with the maximal digit run
captured and read by parseInt. -/
def findRate : List Char → Option Nat
  | [] => none
  | c :: rest =>
      if (c :: rest).take 5 = ['r', 'a', 't', 'e', '='] then
        match ((c :: rest).drop 5).takeWhile Char.isDigit with
        | [] => findRate rest
        | d :: ds => some (natOfDigits (d :: ds))
      else findRate rest

/-- The Int16Array view of the decoded bytes: consecutive little-endian
pairs as signed 16-bit samples. -/
def bytesToSamples : List Nat → List Int
  | b0 :: b1 :: rest => decodeS16 b0 b1 :: bytesToSamples rest
  | _ => []

/-- Message of the RangeError thrown by new Int16Array when the buffer
length is not a multiple of two (line 317). -/
def int16ArrayLenMsg : String :=
  "byte length of Int16Array should be a multiple of 2"

/-- Error text constructed in the catch block of the speech flow
(src/index.tsx line 334). -/
def ttsErrorMsg (msg : String) : String :=
  "An error occurred during TTS generation: " ++ msg

/-- The error thrown on a non-ok HTTP response (line 303). -/
def httpFailMsg (status : Nat) (body : String) : String :=
  "API call failed with status: " ++ toString status ++ ". Response: " ++ body

/-- Result of the asynchronous speech exchange, seen from the orchestrator:
fetch rejection, a non-ok response, or the parsed JSON body. -/
inductive TtsOutcome where
  | fetchReject : String → TtsOutcome
  | httpError : Nat → String → TtsOutcome
  | ok : JsonVal → TtsOutcome

/-- Observable result of one call to handleTextToSpeech, up to the point
where playback is started: the speech state, whether a network request was
issued, the WAV container bytes if one was built, whether audio.play was
invoked, and whether the object URL has been revoked. -/
structure SpeakResult where
  state : SpeechState
  requestIssued : Bool
  wav : Option (List Nat)
  playing : Bool
  urlReleased : Bool

/-- handleTextToSpeech (src/index.tsx lines 265-337), up to the audio.play
call.  The guard, the flag set, the credential check, the exchange, the
response extraction, the base64 decode, the Int16Array view (throwing on
odd byte length), the container build and the play call. -/
def handleTextToSpeech (text : Option String) (st : SpeechState)
    (apiKey : Option String) (outcome : TtsOutcome) : SpeakResult :=
  if textFalsy text || st.isSpeaking then ⟨st, false, none, false, false⟩
  else
    let st1 : SpeechState := { st with isSpeaking := true }
    match apiKey with
    | none =>
        ⟨{ st1 with modal := some "API key is not configured.", isSpeaking := false },
          false, none, false, false⟩
    | some _ =>
        match outcome with
        | TtsOutcome.fetchReject msg =>
            ⟨{ st1 with modal := some (ttsErrorMsg msg), isSpeaking := false },
              true, none, false, false⟩
        | TtsOutcome.httpError status bodyText =>
            ⟨{ st1 with
                modal := some (ttsErrorMsg (httpFailMsg status bodyText))
                isSpeaking := false }, true, none, false, false⟩
        | TtsOutcome.ok body =>
            if audioGuard (speechAudioData body) (speechMimeType body) then
              match findRate ((speechMimeType body).getD "").toList with
              | none =>
                  ⟨{ st1 with
                      modal := some (ttsErrorMsg "Sample rate not found in MIME type")
                      isSpeaking := false }, true, none, false, false⟩
              | some rate =>
                  let bytes := base64ToArrayBuffer ((speechAudioData body).getD "")
                  if bytes.length % 2 == 0 then
                    ⟨st1, true, some (pcmToWav (bytesToSamples bytes) rate), true, false⟩
                  else
                    ⟨{ st1 with
                        modal := some (ttsErrorMsg int16ArrayLenMsg)
                        isSpeaking := false }, true, none, false, false⟩
            else
              ⟨{ st1 with
                  modal := some (ttsErrorMsg "Failed to get audio data from the model.")
                  isSpeaking := false }, true, none, false, false⟩

/-- The rejection handler attached to audio.play() (lines 322-324): it only
shows a modal; it does not touch the isSpeaking flag. -/
def onPlayRejected (r : SpeakResult) (msg : String) : SpeakResult :=
  { r with state := { r.state with modal := some ("Failed to play audio: " ++ msg) } }

/-- The onended handler (lines 326-329): clears the in-flight flag and
revokes the object URL. -/
def onEnded (r : SpeakResult) : SpeakResult :=
  { r with
    state := { r.state with isSpeaking := false }
    playing := false
    urlReleased := true }

/-- A well-formed speech response: one candidate with an inline audio part
at 24000 Hz whose base64 payload decodes to six bytes (three samples). -/
def sampleTtsBody : JsonVal :=
  JsonVal.obj
    [("candidates", JsonVal.arr
      [JsonVal.obj
        [("content", JsonVal.obj
          [("parts", JsonVal.arr
            [JsonVal.obj
              [("inlineData", JsonVal.obj
                [("data", JsonVal.str "AAAAAAAA"),
                 ("mimeType", JsonVal.str "audio/L16;rate=24000")])]])])]])]

/-- A speech response whose payload decodes to a single byte (odd length). -/
def oddTtsBody : JsonVal :=
  JsonVal.obj
    [("candidates", JsonVal.arr
      [JsonVal.obj
        [("content", JsonVal.obj
          [("parts", JsonVal.arr
            [JsonVal.obj
              [("inlineData", JsonVal.obj
                [("data", JsonVal.str "AA=="),
                 ("mimeType", JsonVal.str "audio/L16;rate=24000")])]])])]])]

/- Theorems. -/

/-- Every six-bit group maps to an alphabet character whose index recovers
the group. -/
theorem b64indexOf_charOf : ∀ n : Nat, n < 64 → b64indexOf (b64charOf n) = n := by decide

/-- No alphabet character is the padding character. -/
theorem b64charOf_ne_pad : ∀ n : Nat, n < 64 → (b64charOf n == '=') = false := by decide

/-- Decoding inverts encoding, chunk by chunk. -/
theorem b64_decode_encode : ∀ l : List Nat, (∀ x ∈ l, x < 256) →
    b64decode (b64encode l) = l
  | [], _ => rfl
  | [a], h => by
      have ha : a < 256 := h a (by simp)
      have h1 := b64indexOf_charOf (a / 4) (by omega)
      have h2 := b64indexOf_charOf (a % 4 * 16) (by omega)
      simp only [b64encode, b64decode, h1, h2, beq_self_eq_true, if_true]
      have : a / 4 * 4 + a % 4 * 16 / 16 = a := by omega
      rw [this]
  | [a, b], h => by
      have ha : a < 256 := h a (by simp)
      have hb : b < 256 := h b (by simp)
      have h1 := b64indexOf_charOf (a / 4) (by omega)
      have h2 := b64indexOf_charOf (a % 4 * 16 + b / 16) (by omega)
      have h3 := b64indexOf_charOf (b % 16 * 4) (by omega)
      have hne := b64charOf_ne_pad (b % 16 * 4) (by omega)
      simp only [b64encode, b64decode, h1, h2, h3, hne, beq_self_eq_true, if_true,
        Bool.false_eq_true, if_false]
      have e1 : a / 4 * 4 + (a % 4 * 16 + b / 16) / 16 = a := by omega
      have e2 : (a % 4 * 16 + b / 16) % 16 * 16 + b % 16 * 4 / 4 = b := by omega
      rw [e1, e2]
  | a :: b :: c :: rest, h => by
      have ha : a < 256 := h a (by simp)
      have hb : b < 256 := h b (by simp)
      have hc : c < 256 := h c (by simp)
      have ih := b64_decode_encode rest (fun x hx => h x (by simp [hx]))
      have h1 := b64indexOf_charOf (a / 4) (by omega)
      have h2 := b64indexOf_charOf (a % 4 * 16 + b / 16) (by omega)
      have h3 := b64indexOf_charOf (b % 16 * 4 + c / 64) (by omega)
      have h4 := b64indexOf_charOf (c % 64) (by omega)
      have hne3 := b64charOf_ne_pad (b % 16 * 4 + c / 64) (by omega)
      have hne4 := b64charOf_ne_pad (c % 64) (by omega)
      simp only [b64encode, b64decode, h1, h2, h3, h4, hne3, hne4,
        Bool.false_eq_true, if_false, ih]
      have e1 : a / 4 * 4 + (a % 4 * 16 + b / 16) / 16 = a := by omega
      have e2 : (a % 4 * 16 + b / 16) % 16 * 16 + (b % 16 * 4 + c / 64) / 4 = b := by omega
      have e3 : (b % 16 * 4 + c / 64) % 4 * 64 + c % 64 = c := by omega
      rw [e1, e2, e3]

/-- C4: the base64 encoder used for the image payload and the paired
decoder used for the audio payload are mutually inverse: every byte
sequence round-trips to itself, so the encoding is lossless and
reversible. -/
theorem base64_roundtrip (B : List Nat) (h : ∀ b ∈ B, b < 256) :
    base64ToArrayBuffer (fileToBase64 B) = B := by
  have hmk : (fileToBase64 B).toList = b64encode B := rfl
  show b64decode (fileToBase64 B).toList = B
  rw [hmk]
  exact b64_decode_encode B h

/-- Witness for C4 at a concrete byte sequence. -/
theorem base64_roundtrip_witness :
    (∀ b ∈ [0, 255, 7, 128, 19], b < 256)
      ∧ base64ToArrayBuffer (fileToBase64 [0, 255, 7, 128, 19]) = [0, 255, 7, 128, 19] :=
  ⟨by decide, base64_roundtrip [0, 255, 7, 128, 19] (by decide)⟩

/-- The produced buffer stripped of its 44-byte header is exactly the
sample area. -/
theorem wav_drop44 (S : List Int) (R : Nat) :
    (pcmToWav S R).drop 44 = writeSamples S := rfl

/-- Bytes 0-3 are the ASCII tag RIFF. -/
theorem wav_riff_bytes (S : List Int) (R : Nat) :
    (pcmToWav S R).take 4 = [82, 73, 70, 70] := rfl

/-- Bytes 8-11 are the ASCII tag WAVE. -/
theorem wav_wave_bytes (S : List Int) (R : Nat) :
    ((pcmToWav S R).drop 8).take 4 = [87, 65, 86, 69] := rfl

/-- Bytes 12-15 are the ASCII tag fmt followed by a space. -/
theorem wav_fmt_bytes (S : List Int) (R : Nat) :
    ((pcmToWav S R).drop 12).take 4 = [102, 109, 116, 32] := rfl

/-- Bytes 36-39 are the ASCII tag data. -/
theorem wav_data_bytes (S : List Int) (R : Nat) :
    ((pcmToWav S R).drop 36).take 4 = [100, 97, 116, 97] := rfl

/-- Bytes 4-7 as written: the little-endian residues of the file length
field. -/
theorem wav_fileLen_bytes (S : List Int) (R : Nat) :
    ((pcmToWav S R).drop 4).take 4 =
      [(36 + S.length * 2) % 256, (36 + S.length * 2) / 256 % 256,
       (36 + S.length * 2) / 65536 % 256, (36 + S.length * 2) / 16777216 % 256] := rfl

/-- Bytes 24-27 as written: the little-endian residues of the sample
rate. -/
theorem wav_rate_bytes (S : List Int) (R : Nat) :
    ((pcmToWav S R).drop 24).take 4 =
      [R % 256, R / 256 % 256, R / 65536 % 256, R / 16777216 % 256] := rfl

/-- Bytes 28-31 as written: the little-endian residues of the byte
rate. -/
theorem wav_byteRate_bytes (S : List Int) (R : Nat) :
    ((pcmToWav S R).drop 28).take 4 =
      [2 * R % 256, 2 * R / 256 % 256, 2 * R / 65536 % 256, 2 * R / 16777216 % 256] := rfl

/-- Bytes 40-43 as written: the little-endian residues of the data
length. -/
theorem wav_dataLen_bytes (S : List Int) (R : Nat) :
    ((pcmToWav S R).drop 40).take 4 =
      [S.length * 2 % 256, S.length * 2 / 256 % 256,
       S.length * 2 / 65536 % 256, S.length * 2 / 16777216 % 256] := rfl

/-- Bytes 16-19 as written: the format-chunk length 16. -/
theorem wav_fmtLen_bytes (S : List Int) (R : Nat) :
    ((pcmToWav S R).drop 16).take 4 = [16, 0, 0, 0] := rfl

/-- Bytes 20-21 as written: the PCM sample format 1. -/
theorem wav_format_bytes (S : List Int) (R : Nat) :
    ((pcmToWav S R).drop 20).take 2 = [1, 0] := rfl

/-- Bytes 22-23 as written: the channel count 1. -/
theorem wav_channels_bytes (S : List Int) (R : Nat) :
    ((pcmToWav S R).drop 22).take 2 = [1, 0] := rfl

/-- Bytes 32-33 as written: the block align 2. -/
theorem wav_blockAlign_bytes (S : List Int) (R : Nat) :
    ((pcmToWav S R).drop 32).take 2 = [2, 0] := rfl

/-- Bytes 34-35 as written: the bits per sample 16. -/
theorem wav_bits_bytes (S : List Int) (R : Nat) :
    ((pcmToWav S R).drop 34).take 2 = [16, 0] := rfl

/-- Evaluation of the 32-bit reader on four explicit bytes. -/
theorem decodeLE32_eq (a b c d : Nat) :
    decodeLE32 [a, b, c, d] = a + 256 * b + 65536 * c + 16777216 * d := rfl

/-- Evaluation of the 16-bit reader on two explicit bytes. -/
theorem decodeLE16_eq (a b : Nat) : decodeLE16 [a, b] = a + 256 * b := rfl

/-- The sample area is two bytes per sample. -/
theorem writeSamples_length (S : List Int) :
    (writeSamples S).length = 2 * S.length := by
  induction S with
  | nil => rfl
  | cons s rest ih =>
      simp only [writeSamples, i16le, le16, List.length_append, List.length_cons,
        List.length_nil, ih]
      omega

/-- Dropping 2i bytes of the sample area lands on the bytes of sample i. -/
theorem writeSamples_drop : ∀ (S : List Int) (i : Nat) (hi : i < S.length),
    (writeSamples S).drop (2 * i) = i16le (S.get ⟨i, hi⟩) ++ writeSamples (S.drop (i + 1))
  | s :: rest, 0, _ => by simp [writeSamples]
  | s :: rest, i + 1, hi => by
      have hi2 : i < rest.length := by simpa using Nat.lt_of_succ_lt_succ hi
      have step : 2 * (i + 1) = 2 * i + 1 + 1 := by omega
      have ih := writeSamples_drop rest i hi2
      simp only [writeSamples, i16le, le16, List.cons_append, List.nil_append, step,
        List.drop_succ_cons]
      simpa [i16le, le16] using ih

/-- Reading back the two bytes written for an in-range sample recovers the
sample. -/
theorem decodeS16_i16 (s : Int) (h1 : -32768 ≤ s) (h2 : s < 32768) :
    decodeS16 ((s % 65536).toNat % 256) ((s % 65536).toNat / 256 % 256) = s := by
  unfold decodeS16
  split <;> omega

/-- C1 (amended): for samples in signed 16-bit range and bounds keeping the
32-bit header fields from wrapping (sample rate below 2 to the 31, data
area below 2 to the 32 minus 36 bytes), pcmToWav returns a buffer of length
44 + 2 len(S) whose header carries the tags RIFF, WAVE, fmt and data at
offsets 0, 8, 12, 36 and the little-endian fields file length 36 + 2 len(S),
format-chunk length 16, PCM format 1, channel count 1, sample rate R, byte
rate 2R, block align 2, bits per sample 16 and data length 2 len(S), and
whose bytes from offset 44 on reproduce S as little-endian signed 16-bit
integers in input order. -/
theorem pcmToWav_spec (S : List Int) (R : Nat) (hR0 : 0 < R) (hR : R < 2147483648)
    (hLen : 36 + S.length * 2 < 4294967296)
    (hS : ∀ s ∈ S, -32768 ≤ s ∧ s < 32768) :
    (pcmToWav S R).length = 44 + 2 * S.length
    ∧ (pcmToWav S R).take 4 = [82, 73, 70, 70]
    ∧ ((pcmToWav S R).drop 8).take 4 = [87, 65, 86, 69]
    ∧ ((pcmToWav S R).drop 12).take 4 = [102, 109, 116, 32]
    ∧ ((pcmToWav S R).drop 36).take 4 = [100, 97, 116, 97]
    ∧ decodeLE32 (((pcmToWav S R).drop 4).take 4) = 36 + S.length * 2
    ∧ decodeLE32 (((pcmToWav S R).drop 16).take 4) = 16
    ∧ decodeLE16 (((pcmToWav S R).drop 20).take 2) = 1
    ∧ decodeLE16 (((pcmToWav S R).drop 22).take 2) = 1
    ∧ decodeLE32 (((pcmToWav S R).drop 24).take 4) = R
    ∧ decodeLE32 (((pcmToWav S R).drop 28).take 4) = R * 2
    ∧ decodeLE16 (((pcmToWav S R).drop 32).take 2) = 2
    ∧ decodeLE16 (((pcmToWav S R).drop 34).take 2) = 16
    ∧ decodeLE32 (((pcmToWav S R).drop 40).take 4) = S.length * 2
    ∧ ∀ (i : Nat) (hi : i < S.length),
        decodeS16 (((pcmToWav S R).drop (44 + 2 * i)).getD 0 0)
          (((pcmToWav S R).drop (44 + 2 * i)).getD 1 0) = S.get ⟨i, hi⟩ := by
  refine ⟨?_, wav_riff_bytes S R, wav_wave_bytes S R, wav_fmt_bytes S R,
    wav_data_bytes S R, ?_, ?_, ?_, ?_, ?_, ?_, ?_, ?_, ?_, ?_⟩
  · simp only [pcmToWav, be32, le32, le16, List.append_assoc, List.length_append,
      List.length_cons, List.length_nil, writeSamples_length]
    omega
  · rw [wav_fileLen_bytes, decodeLE32_eq]; omega
  · rw [wav_fmtLen_bytes]; rfl
  · rw [wav_format_bytes]; rfl
  · rw [wav_channels_bytes]; rfl
  · rw [wav_rate_bytes, decodeLE32_eq]; omega
  · rw [wav_byteRate_bytes, decodeLE32_eq]; omega
  · rw [wav_blockAlign_bytes]; rfl
  · rw [wav_bits_bytes]; rfl
  · rw [wav_dataLen_bytes, decodeLE32_eq]; omega
  · intro i hi
    have hdd : (pcmToWav S R).drop (44 + 2 * i) = (writeSamples S).drop (2 * i) := by
      rw [← List.drop_drop, wav_drop44]
    have hshape : (writeSamples S).drop (2 * i) =
        ((S.get ⟨i, hi⟩ % 65536).toNat % 256)
          :: ((S.get ⟨i, hi⟩ % 65536).toNat / 256 % 256)
          :: writeSamples (S.drop (i + 1)) := by
      rw [writeSamples_drop S i hi]; rfl
    obtain ⟨ha, hb⟩ := hS (S.get ⟨i, hi⟩) (List.get_mem S i hi)
    rw [hdd, hshape]
    exact decodeS16_i16 (S.get ⟨i, hi⟩) ha hb

/-- Witness for C1 at the specification example: samples 0, 1000, -1000 at
24000 Hz give a 50-byte buffer whose sample area is 00 00 E8 03 18 FC and
whose rate field reads back 24000. -/
theorem pcmToWav_spec_witness :
    (pcmToWav [0, 1000, -1000] 24000).length = 50
    ∧ ((pcmToWav [0, 1000, -1000] 24000).drop 44).take 6 = [0, 0, 232, 3, 24, 252]
    ∧ decodeLE32 (((pcmToWav [0, 1000, -1000] 24000).drop 24).take 4) = 24000 := by
  have h := pcmToWav_spec [0, 1000, -1000] 24000 (by decide) (by decide) (by decide)
    (by decide)
  exact ⟨h.1, by decide, h.2.2.2.2.2.2.2.2.2.1⟩

/-- Counterexample to C1 as stated for every rate and every sample list:
at rate 2 to the 31 the byte-rate field wraps modulo 2 to the 32 and reads
back 0 instead of 2R, and for 2 to the 31 samples the file-length field
wraps and reads back 36 instead of 36 + 2 len(S). -/
theorem pcmToWav_overflow_cex :
    (0 < 2147483648
      ∧ decodeLE32 (((pcmToWav [] 2147483648).drop 28).take 4) ≠ 2147483648 * 2)
    ∧ decodeLE32 (((pcmToWav (List.replicate 2147483648 0) 24000).drop 4).take 4)
        ≠ 36 + (List.replicate 2147483648 (0 : Int)).length * 2 := by
  refine ⟨⟨by decide, by decide⟩, ?_⟩
  rw [wav_fileLen_bytes, decodeLE32_eq]
  simp only [List.length_replicate]
  decide

/-- C2: after a successful analysis run the metadata is populated from the
response exactly when all four verdict fields compare equal to "pass"
(so whenever any verdict is "found" the metadata state stays cleared even
if the payload carries title, description or tags), and an absent tags
field yields the empty array instead of a failure. -/
theorem metadata_gating (st : AnalyzeState) (j : JsonVal) :
    ((analyzeImageWithAI st (AnalyzeOutcome.responseText (Except.ok j))).title
        = if allPass j then getField j "title" else none)
    ∧ ((analyzeImageWithAI st (AnalyzeOutcome.responseText (Except.ok j))).imageDescription
        = if allPass j then getField j "imageDescription" else none)
    ∧ ((analyzeImageWithAI st (AnalyzeOutcome.responseText (Except.ok j))).tags
        = if allPass j then tagsOrEmpty j else JsonVal.arr [])
    ∧ (getField j "tags" = none → tagsOrEmpty j = JsonVal.arr []) := by
  refine ⟨?_, ?_, ?_, ?_⟩
  · cases j <;>
      simp [analyzeImageWithAI, applyOutcome, applyParsed, resetState, allPass,
        getField, isPassVal] <;> split <;> simp_all
  · cases j <;>
      simp [analyzeImageWithAI, applyOutcome, applyParsed, resetState, allPass,
        getField, isPassVal] <;> split <;> simp_all
  · cases j <;>
      simp [analyzeImageWithAI, applyOutcome, applyParsed, resetState, allPass,
        getField, isPassVal] <;> split <;> simp_all
  · intro h
    simp [tagsOrEmpty, h]

/-- Witness for C2: on an all-pass response carrying a title and a
description but no tags field, the metadata is populated and the tags
default to the empty array. -/
theorem metadata_gating_witness :
    allPass samplePassResponse = true
    ∧ getField samplePassResponse "tags" = none
    ∧ (analyzeImageWithAI initialAnalysis
        (AnalyzeOutcome.responseText (Except.ok samplePassResponse))).title
        = some (JsonVal.str "Red fox in a sunlit field")
    ∧ (analyzeImageWithAI initialAnalysis
        (AnalyzeOutcome.responseText (Except.ok samplePassResponse))).tags
        = JsonVal.arr [] := by
  have h := metadata_gating initialAnalysis samplePassResponse
  refine ⟨rfl, rfl, ?_, ?_⟩
  · rw [h.1]; rfl
  · rw [h.2.2.1]
    show tagsOrEmpty samplePassResponse = JsonVal.arr []
    exact h.2.2.2 rfl

/-- Counterexample to C3 as stated: a syntactically valid JSON payload that
does not match the declared shape (its status field is neither "pass" nor
"found" and the explanation fields are missing) is accepted by the
analysis operation without any failure being surfaced. -/
theorem shape_not_validated_cex :
    declaredShapeOk badShape = false
    ∧ (analyzeImageWithAI initialAnalysis
        (AnalyzeOutcome.responseText (Except.ok badShape))).error = none := ⟨rfl, rfl⟩

/-- C3 (amended): the analysis operation fails with the generic
analysis-failure message carrying the underlying cause exactly when
JSON.parse throws on the response text (or the parsed value is null, whose
first property access throws); any other syntactically valid payload is
accepted without local shape validation, the declared schema being enforced
only in the request configuration. -/
theorem analysis_parse_failure (st : AnalyzeState) (msg : String) (j : JsonVal)
    (hj : j ≠ JsonVal.null) :
    (analyzeImageWithAI st (AnalyzeOutcome.responseText (Except.error msg))).error
        = some (analysisErrorMsg msg)
    ∧ (analyzeImageWithAI st (AnalyzeOutcome.responseText (Except.ok JsonVal.null))).error
        = some (analysisErrorMsg nullStatusAccessMsg)
    ∧ (analyzeImageWithAI st (AnalyzeOutcome.throwBefore msg)).error
        = some (analysisErrorMsg msg)
    ∧ (analyzeImageWithAI st (AnalyzeOutcome.responseText (Except.ok j))).error = none := by
  refine ⟨rfl, rfl, rfl, ?_⟩
  cases j with
  | null => exact absurd rfl hj
  | bool b => rfl
  | num n => rfl
  | str s => rfl
  | arr xs =>
      simp only [analyzeImageWithAI, applyOutcome, applyParsed]
      split <;> rfl
  | obj fs =>
      simp only [analyzeImageWithAI, applyOutcome, applyParsed]
      split <;> rfl

/-- Witness for C3 amended, at a concrete parse error and a concrete
well-formed payload. -/
theorem analysis_parse_failure_witness :
    (analyzeImageWithAI initialAnalysis
        (AnalyzeOutcome.responseText (Except.error "Unexpected end of JSON input"))).error
        = some (analysisErrorMsg "Unexpected end of JSON input")
    ∧ (analyzeImageWithAI initialAnalysis
        (AnalyzeOutcome.responseText (Except.ok samplePassResponse))).error = none :=
  ⟨(analysis_parse_failure initialAnalysis "Unexpected end of JSON input"
      samplePassResponse (by simp [samplePassResponse])).1,
   (analysis_parse_failure initialAnalysis "Unexpected end of JSON input"
      samplePassResponse (by simp [samplePassResponse])).2.2.2⟩

/-- C5: on any failing exchange (rejection before or during the network
round trip, or a JSON.parse throw) the analysis operation aborts with every
verdict, every explanation, the title, the description and the tags in the
reset state, and the failure surfaced in the error banner; state is never
partially populated because the reset precedes the exchange and the failure
path writes no verdict data. -/
theorem analyze_failure_atomic (st : AnalyzeState) (o : AnalyzeOutcome)
    (h : failedExchange o = true) :
    (analyzeImageWithAI st o).copyrightStatus = none
    ∧ (analyzeImageWithAI st o).copyrightDescription = none
    ∧ (analyzeImageWithAI st o).zedgeViolationStatus = none
    ∧ (analyzeImageWithAI st o).zedgeViolationDescription = none
    ∧ (analyzeImageWithAI st o).womenPolicyStatus = none
    ∧ (analyzeImageWithAI st o).womenPolicyDescription = none
    ∧ (analyzeImageWithAI st o).kidsViolationStatus = none
    ∧ (analyzeImageWithAI st o).kidsViolationDescription = none
    ∧ (analyzeImageWithAI st o).title = none
    ∧ (analyzeImageWithAI st o).imageDescription = none
    ∧ (analyzeImageWithAI st o).tags = JsonVal.arr []
    ∧ (∃ m, (analyzeImageWithAI st o).error = some (analysisErrorMsg m)) := by
  match o with
  | AnalyzeOutcome.throwBefore msg =>
      exact ⟨rfl, rfl, rfl, rfl, rfl, rfl, rfl, rfl, rfl, rfl, rfl, msg, rfl⟩
  | AnalyzeOutcome.responseText (Except.error msg) =>
      exact ⟨rfl, rfl, rfl, rfl, rfl, rfl, rfl, rfl, rfl, rfl, rfl, msg, rfl⟩
  | AnalyzeOutcome.responseText (Except.ok j) => simp [failedExchange] at h

/-- Witness for C5 at a concrete network failure. -/
theorem analyze_failure_atomic_witness :
    failedExchange (AnalyzeOutcome.throwBefore "Failed to fetch") = true
    ∧ (analyzeImageWithAI initialAnalysis
        (AnalyzeOutcome.throwBefore "Failed to fetch")).copyrightStatus = none
    ∧ (∃ m, (analyzeImageWithAI initialAnalysis
        (AnalyzeOutcome.throwBefore "Failed to fetch")).error
          = some (analysisErrorMsg m)) :=
  ⟨rfl,
   (analyze_failure_atomic initialAnalysis (AnalyzeOutcome.throwBefore "Failed to fetch")
      rfl).1,
   (analyze_failure_atomic initialAnalysis (AnalyzeOutcome.throwBefore "Failed to fetch")
      rfl).2.2.2.2.2.2.2.2.2.2.2⟩

/-- C6: once a click on the analyze button is accepted and dispatches the
exchange, the resulting in-flight state has the loading flag set and any
further click is refused (the button is disabled) for the whole duration of
the run, so no second simultaneous request can be issued. -/
theorem analyze_mutual_exclusion (st st1 : AppState) (b : Bool)
    (h : clickAnalyze st = some (st1, b)) :
    st1.loading = true ∧ clickAnalyze st1 = none ∧ b = true := by
  unfold clickAnalyze at h
  split at h
  · exact Option.noConfusion h
  · rename_i hd
    unfold analyzeHandlerStart at h
    split at h
    · rename_i himg
      exact absurd (by simp [analyzeDisabled, himg]) hd
    · have h2 := Option.some.inj h
      have h3 : ({ st with loading := true, analysis := resetState st.analysis } : AppState)
          = st1 := congrArg Prod.fst h2
      have h4 : true = b := congrArg Prod.snd h2
      subst h3
      exact ⟨rfl, by simp [clickAnalyze, analyzeDisabled], h4.symm⟩

/-- Witness for C6: from a state with an image selected and not loading, a
first click starts the run and a second click during it is refused. -/
theorem analyze_mutual_exclusion_witness :
    clickAnalyze { initialAppState with imagePresent := true }
      = some ({ initialAppState with
                  imagePresent := true
                  loading := true
                  analysis := resetState initialAnalysis }, true)
    ∧ clickAnalyze { initialAppState with
                       imagePresent := true
                       loading := true
                       analysis := resetState initialAnalysis } = none :=
  ⟨rfl, (analyze_mutual_exclusion { initialAppState with imagePresent := true } _ _ rfl).2.1⟩

/-- C7: a call to speak with falsy text (absent or empty) or while a
playback is already in flight is a silent no-op: no network request, no
message, no state change, no container, no playback. -/
theorem speak_guard_noop (text : Option String) (st : SpeechState) (key : Option String)
    (o : TtsOutcome) (h : textFalsy text = true ∨ st.isSpeaking = true) :
    handleTextToSpeech text st key o = ⟨st, false, none, false, false⟩ := by
  unfold handleTextToSpeech
  rcases h with h | h <;> simp [h]

/-- Witness for C7: empty text while idle is a silent no-op. -/
theorem speak_guard_noop_witness :
    (textFalsy (some "") = true ∨ (⟨true, none⟩ : SpeechState).isSpeaking = true)
    ∧ handleTextToSpeech (some "") ⟨false, none⟩ (some "key") (TtsOutcome.fetchReject "x")
        = ⟨⟨false, none⟩, false, none, false, false⟩ :=
  ⟨Or.inl rfl, speak_guard_noop (some "") ⟨false, none⟩ (some "key")
      (TtsOutcome.fetchReject "x") (Or.inl rfl)⟩

/-- C9: with non-empty text, no playback in flight and no configured API
credential, speak reports the configuration error, clears the in-flight
flag immediately and issues no network request. -/
theorem speak_missing_key (text : Option String) (st : SpeechState) (o : TtsOutcome)
    (ht : textFalsy text = false) (hs : st.isSpeaking = false) :
    handleTextToSpeech text st none o
      = ⟨{ st with modal := some "API key is not configured.", isSpeaking := false },
          false, none, false, false⟩ := by
  unfold handleTextToSpeech
  rw [ht, hs]
  simp

/-- Witness for C9 at concrete text and state. -/
theorem speak_missing_key_witness :
    textFalsy (some "A fox in a field") = false
    ∧ (⟨false, none⟩ : SpeechState).isSpeaking = false
    ∧ handleTextToSpeech (some "A fox in a field") ⟨false, none⟩ none
        (TtsOutcome.fetchReject "unreachable")
        = ⟨⟨false, some "API key is not configured."⟩, false, none, false, false⟩ :=
  ⟨rfl, rfl, speak_missing_key (some "A fox in a field") ⟨false, none⟩
      (TtsOutcome.fetchReject "unreachable") rfl rfl⟩

/-- C8, evaluated on the code: a successful speech exchange starts playback
with the in-flight flag set; if the play call rejects, the handler only
reports the playback error and the flag stays set (it is cleared, with the
resource release, only by the natural-completion handler).  The claim says
the flag must still be cleared on a play-start failure; the code does not
do so. -/
theorem speak_flag_leak :
    (handleTextToSpeech (some "A fox in a field") ⟨false, none⟩ (some "key")
        (TtsOutcome.ok sampleTtsBody)).playing = true
    ∧ (handleTextToSpeech (some "A fox in a field") ⟨false, none⟩ (some "key")
        (TtsOutcome.ok sampleTtsBody)).state.isSpeaking = true
    ∧ (onPlayRejected (handleTextToSpeech (some "A fox in a field") ⟨false, none⟩
        (some "key") (TtsOutcome.ok sampleTtsBody)) "NotAllowedError").state.isSpeaking
        = true
    ∧ (onPlayRejected (handleTextToSpeech (some "A fox in a field") ⟨false, none⟩
        (some "key") (TtsOutcome.ok sampleTtsBody)) "NotAllowedError").state.modal
        = some "Failed to play audio: NotAllowedError"
    ∧ (onEnded (handleTextToSpeech (some "A fox in a field") ⟨false, none⟩ (some "key")
        (TtsOutcome.ok sampleTtsBody))).state.isSpeaking = false
    ∧ (onEnded (handleTextToSpeech (some "A fox in a field") ⟨false, none⟩ (some "key")
        (TtsOutcome.ok sampleTtsBody))).urlReleased = true :=
  ⟨rfl, rfl, rfl, rfl, rfl, rfl⟩

/-- C10: a speech response whose audio media type carries a rate parameter
but whose base64 payload decodes to an odd number of bytes makes the
Int16Array construction throw; the exception is caught, the descriptive
error is surfaced, the in-flight flag is cleared, and no container is built
and no playback starts. -/
theorem odd_pcm_length_fails (text : Option String) (st : SpeechState) (key : String)
    (body : JsonVal) (rate : Nat)
    (ht : textFalsy text = false) (hs : st.isSpeaking = false)
    (hguard : audioGuard (speechAudioData body) (speechMimeType body) = true)
    (hrate : findRate ((speechMimeType body).getD "").toList = some rate)
    (hodd : (base64ToArrayBuffer ((speechAudioData body).getD "")).length % 2 = 1) :
    handleTextToSpeech text st (some key) (TtsOutcome.ok body)
      = ⟨{ st with modal := some (ttsErrorMsg int16ArrayLenMsg), isSpeaking := false },
          true, none, false, false⟩ := by
  have hb : ((base64ToArrayBuffer ((speechAudioData body).getD "")).length % 2 == 0)
      = false := by simp [hodd]
  have hrate2 : findRate ((speechMimeType body).getD "").data = some rate := hrate
  unfold handleTextToSpeech
  rw [ht, hs]
  simp [hguard, hrate, hrate2, hb]

/-- Witness for C10: a payload decoding to one byte at 24000 Hz fails with
the Int16Array length error, the flag cleared and nothing built. -/
theorem odd_pcm_length_fails_witness :
    textFalsy (some "Hello") = false
    ∧ audioGuard (speechAudioData oddTtsBody) (speechMimeType oddTtsBody) = true
    ∧ findRate ((speechMimeType oddTtsBody).getD "").toList = some 24000
    ∧ (base64ToArrayBuffer ((speechAudioData oddTtsBody).getD "")).length % 2 = 1
    ∧ handleTextToSpeech (some "Hello") ⟨false, none⟩ (some "key")
        (TtsOutcome.ok oddTtsBody)
        = ⟨⟨false, some (ttsErrorMsg int16ArrayLenMsg)⟩, true, none, false, false⟩ :=
  ⟨rfl, rfl, rfl, rfl, odd_pcm_length_fails (some "Hello") ⟨false, none⟩ "key"
      oddTtsBody 24000 rfl rfl rfl rfl rfl⟩
